import Mathlib

/-!
Shallow embedding of the text-to-image-gallery backend handlers
(src/server/src/handlers and the unnamed handler files) together with
the database state they act on. Machine state is a record of the three
tables plus id counters and a logical clock supplying creation
timestamps; each handler is a pure function from state (and the
explicit nondeterministic inputs the code draws from the environment,
such as salts and uuids) to a result paired with the successor state.
-/

namespace Gallery

/-- Status enumeration of an image generation, from the status column
used throughout the handlers: pending, completed or failed. -/
inductive GenStatus
  | pending
  | completed
  | failed
  deriving DecidableEq, Repr

/-- Abstract model of the stored password-credential string. The
register handler (src/server/src/handlers/register.ts) stores
hex(sha256(password ++ salt)) ++ ":" ++ salt, abstracted as
`sha256Salted password salt`; the login handler checks the stored
string with bcryptjs compare, and test setup (part_010) inserts
bcrypt hashes, abstracted as `bcrypt password`. The two formats are
distinguishable constructors because the concrete strings are
distinguishable: a bcrypt hash is exactly 60 characters starting with
a dollar sign, while the sha256 encoding is 64 hex characters, a
colon and a salt. -/
inductive HashString
  | sha256Salted (password salt : String)
  | bcrypt (password : String)
  deriving DecidableEq, Repr

/-- Model of bcryptjs compare: it resolves true only when the stored
string is a well-formed bcrypt hash of the given password; on any
string that is not in bcrypt format (wrong length or prefix) it
resolves false. -/
def bcryptCompare (password : String) (h : HashString) : Bool :=
  match h with
  | .bcrypt p => password == p
  | .sha256Salted _ _ => false

/-- Hashing performed by the register handler: sha256 of password
concatenated with the salt, joined to the salt with a colon. -/
def registerHash (password salt : String) : HashString :=
  .sha256Salted password salt

/-- Row of the users table. -/
structure User where
  id : Nat
  email : String
  username : String
  password_hash : HashString
  created_at : Nat
  deriving DecidableEq, Repr

/-- Row of the image_generations table. -/
structure ImageGeneration where
  id : Nat
  user_id : Nat
  prompt : String
  image_url : String
  image_filename : String
  status : GenStatus
  created_at : Nat
  completed_at : Option Nat
  deriving DecidableEq, Repr

/-- Row of the gallery_images table. -/
structure GalleryImage where
  id : Nat
  user_id : Nat
  image_generation_id : Nat
  title : Option String
  is_public : Bool
  created_at : Nat
  deriving DecidableEq, Repr

/-- User payload returned by register and login: id, email, username
and creation timestamp only; the structure has no credential field. -/
structure PublicUser where
  id : Nat
  email : String
  username : String
  created_at : Nat
  deriving DecidableEq, Repr

/-- Projection from a stored user row to the returned payload,
dropping the password credential. -/
def publicUser (u : User) : PublicUser :=
  { id := u.id, email := u.email, username := u.username, created_at := u.created_at }

/-- Bearer-token payload: jwt sign is called with subject userId and
email in both auth handlers; signing and expiry are external. -/
structure Token where
  userId : Nat
  email : String
  deriving DecidableEq, Repr

/-- Response of register and login. -/
structure AuthResponse where
  user : PublicUser
  token : Token
  deriving DecidableEq, Repr

/-- Response of downloadImage. -/
structure DownloadResult where
  downloadUrl : String
  filename : String
  deriving DecidableEq, Repr

/-- Error classes of the handlers, following the taxonomy of the
thrown messages: conflictEmail for "Email already exists",
conflictUsername for "Username already exists", conflictGallery for
"Image generation is already saved to gallery", authentication for
"Invalid email or password", notFound for the missing-resource
messages, invalidState for wrong-lifecycle messages, accessDenied for
"Access denied". -/
inductive ApiError
  | conflictEmail
  | conflictUsername
  | conflictGallery
  | authentication
  | notFound
  | invalidState
  | accessDenied
  deriving DecidableEq, Repr

/-- Database state: the three tables in insertion order, the next
surrogate key for each, and a logical clock whose value stamps
created_at and completed_at columns. -/
structure DBState where
  users : List User
  generations : List ImageGeneration
  galleryImages : List GalleryImage
  nextUserId : Nat
  nextGenId : Nat
  nextGalleryId : Nat
  now : Nat
  deriving DecidableEq, Repr

/-- Empty database. -/
def DBState.empty : DBState :=
  { users := [], generations := [], galleryImages := [],
    nextUserId := 1, nextGenId := 1, nextGalleryId := 1, now := 0 }

/-- Straight-line continuation of the register handler after the
duplicate check: hash the password with a fresh salt, insert the
user row, and return the public payload with a token. -/
def registerCreate (st : DBState) (email password username salt : String) :
    Except ApiError AuthResponse × DBState :=
  let user : User :=
    { id := st.nextUserId, email := email, username := username,
      password_hash := registerHash password salt, created_at := st.now }
  let st' : DBState :=
    { st with users := st.users ++ [user],
              nextUserId := st.nextUserId + 1, now := st.now + 1 }
  (.ok { user := publicUser user, token := { userId := user.id, email := user.email } }, st')

/-- Register handler (src/server/src/handlers/register.ts). The salt
is drawn from the environment and passed explicitly. The handler
selects users whose email or username equals the input; on a
nonempty result it inspects the first row, reporting an email
conflict when its email matches, then a username conflict when its
username matches, and otherwise falls through to the insert exactly
as the source does (that branch is unreachable because the row
matched the email-or-username filter). -/
def register (st : DBState) (email password username salt : String) :
    Except ApiError AuthResponse × DBState :=
  match st.users.filter (fun u => u.email == email || u.username == username) with
  | existingUser :: _ =>
    if existingUser.email == email then
      (.error .conflictEmail, st)
    else if existingUser.username == username then
      (.error .conflictUsername, st)
    else
      registerCreate st email password username salt
  | [] =>
    registerCreate st email password username salt

/-- Login handler (unnamed part_000). Finds the first user with the
given email, verifies the password with bcryptjs compare against the
stored hash, and returns the public payload with a fresh token; both
a missing email and a failed verification give the same
authentication error. -/
def login (st : DBState) (email password : String) : Except ApiError AuthResponse :=
  match st.users.filter (fun u => u.email == email) with
  | [] => .error .authentication
  | user :: _ =>
    if bcryptCompare password user.password_hash then
      .ok { user := publicUser user, token := { userId := user.id, email := user.email } }
    else
      .error .authentication

/-- Provider-failure predicate of the simulated generation service in
unnamed part_004: the simulated call throws exactly when the
lower-cased prompt contains the substring error. Containment is
expressed through splitOn: a string contains the pattern iff
splitting on it yields more than one piece. -/
def promptTriggersFailure (prompt : String) : Bool :=
  (prompt.toLower.splitOn "error").length != 1

/-- Url returned by the simulated provider on success. -/
def providerUrl (filename : String) : String :=
  "https://generated-images.example.com/" ++ filename

/-- Replaces every generation row with the given id by the image of
the update function, modelling a sql update with an id filter. -/
def updateGenRows (rows : List ImageGeneration) (gid : Nat)
    (f : ImageGeneration → ImageGeneration) : List ImageGeneration :=
  rows.map (fun g => if g.id == gid then f g else g)

/-- Generate-image handler (unnamed part_004). The uuid for the fresh
filename is drawn from the environment and passed explicitly. The
handler errors when the user id matches no user; otherwise it inserts
a pending row with empty url, invokes the simulated provider, and
performs exactly one terminal update: on success status completed
with the provider url and a completion timestamp, on provider failure
status failed with a completion timestamp only. The provider failure
is absorbed: the handler still returns the updated row. -/
def generateImage (st : DBState) (user_id : Nat) (prompt uuid : String) :
    Except ApiError ImageGeneration × DBState :=
  if (st.users.filter (fun u => u.id == user_id)).isEmpty then
    (.error .notFound, st)
  else
    let filename := "generated_" ++ uuid ++ ".png"
    let pendingRec : ImageGeneration :=
      { id := st.nextGenId, user_id := user_id, prompt := prompt,
        image_url := "", image_filename := filename, status := .pending,
        created_at := st.now, completed_at := none }
    let st1 : DBState :=
      { st with generations := st.generations ++ [pendingRec],
                nextGenId := st.nextGenId + 1, now := st.now + 1 }
    if promptTriggersFailure prompt then
      let failedRec := { pendingRec with status := GenStatus.failed,
                                         completed_at := some st1.now }
      let st2 : DBState :=
        { st1 with generations := updateGenRows st1.generations pendingRec.id
                     (fun g => { g with status := GenStatus.failed,
                                        completed_at := some st1.now }),
                   now := st1.now + 1 }
      (.ok failedRec, st2)
    else
      let doneRec := { pendingRec with image_url := providerUrl filename,
                                       status := GenStatus.completed,
                                       completed_at := some st1.now }
      let st2 : DBState :=
        { st1 with generations := updateGenRows st1.generations pendingRec.id
                     (fun g => { g with image_url := providerUrl filename,
                                        status := GenStatus.completed,
                                        completed_at := some st1.now }),
                   now := st1.now + 1 }
      (.ok doneRec, st2)

/-- Insertion sort descending by a numeric key, modelling the sql
order-by created_at desc clauses of the listing handlers. -/
def sortByKeyDesc (key : α → Nat) (l : List α) : List α :=
  List.insertionSort (fun a b => key b ≤ key a) l

/-- Rows selected by the generation-listing query before ordering
and pagination: the where clause filters by owner and, when given,
by status. -/
def genRowsFor (st : DBState) (user_id : Nat) (status : Option GenStatus) :
    List ImageGeneration :=
  st.generations.filter (fun g =>
    g.user_id == user_id &&
      (match status with
       | some s => g.status == s
       | none => true))

/-- Listing handler for image generations (unnamed part_001): filters
by owner and optional status, orders newest first, and paginates with
limit defaulting to 20 and offset defaulting to 0. -/
def getUserImageGenerations (st : DBState) (user_id : Nat)
    (status : Option GenStatus) (limit offset : Option Nat) : List ImageGeneration :=
  let sorted := sortByKeyDesc (fun g => g.created_at) (genRowsFor st user_id status)
  (sorted.drop (offset.getD 0)).take (limit.getD 20)

/-- Rows produced by the gallery-listing inner join before ordering
and pagination: each gallery row of the user contributes one output
row per generation row matching its image_generation_id, and the
result keeps the gallery-side columns. -/
def galleryJoinRows (st : DBState) (user_id : Nat) : List GalleryImage :=
  (st.galleryImages.filter (fun gi => gi.user_id == user_id)).flatMap
    (fun gi => (st.generations.filter (fun g => g.id == gi.image_generation_id)).map
      (fun _ => gi))

/-- Listing handler for the gallery (unnamed part_003): inner-joins
gallery rows of the user with the generations table, orders newest
first by the gallery creation timestamp, then applies limit and
offset only when each is provided in the input. -/
def getUserGallery (st : DBState) (user_id : Nat)
    (limit offset : Option Nat) : List GalleryImage :=
  let sorted := sortByKeyDesc (fun gi => gi.created_at) (galleryJoinRows st user_id)
  match limit, offset with
  | some l, some o => (sorted.drop o).take l
  | some l, none => sorted.take l
  | none, some o => sorted.drop o
  | none, none => sorted

/-- Gallery-save precondition of unnamed part_005: a generation row
with the given id exists, belongs to the user and is completed. -/
def genCompletedOwned (st : DBState) (user_id image_generation_id : Nat) : Bool :=
  !(st.generations.filter (fun g =>
      g.id == image_generation_id && g.user_id == user_id &&
        g.status == GenStatus.completed)).isEmpty

/-- Number of gallery rows linking the given user and generation. -/
def galleryPairCount (st : DBState) (user_id image_generation_id : Nat) : Nat :=
  (st.galleryImages.filter (fun gi =>
    gi.image_generation_id == image_generation_id && gi.user_id == user_id)).length

/-- Save-to-gallery handler (unnamed part_005). Fails with the
combined not-found error unless a completed generation owned by the
user exists; fails with a conflict when a gallery row already links
the pair; otherwise inserts one row whose title is the input title
coerced to null when falsy (absent or the empty string) and whose
visibility defaults to false. -/
def saveToGallery (st : DBState) (user_id image_generation_id : Nat)
    (title : Option String) (is_public : Option Bool) :
    Except ApiError GalleryImage × DBState :=
  if !genCompletedOwned st user_id image_generation_id then
    (.error .notFound, st)
  else if galleryPairCount st user_id image_generation_id != 0 then
    (.error .conflictGallery, st)
  else
    let storedTitle : Option String :=
      match title with
      | some t => if t == "" then none else some t
      | none => none
    let gi : GalleryImage :=
      { id := st.nextGalleryId, user_id := user_id,
        image_generation_id := image_generation_id,
        title := storedTitle, is_public := is_public.getD false,
        created_at := st.now }
    let st' : DBState :=
      { st with galleryImages := st.galleryImages ++ [gi],
                nextGalleryId := st.nextGalleryId + 1, now := st.now + 1 }
    (.ok gi, st')

/-- First gallery row with the given id owned by the given user,
modelling the ownership lookup shared by update and delete. -/
def findGalleryOwned (st : DBState) (id user_id : Nat) : Option GalleryImage :=
  (st.galleryImages.filter (fun gi => gi.id == id && gi.user_id == user_id)).head?

/-- Update handler (src/server/src/handlers/update_gallery_image.ts).
The title argument distinguishes three input shapes: none models a
request without a title key, some none models a title key explicitly
present with an undefined value (stored as null), and some (some t)
models a provided string. The is_public argument is none when absent
or undefined. When neither field is to be updated the handler returns
the stored row unchanged; otherwise it updates exactly the provided
fields on the owned row. -/
def updateGalleryImage (st : DBState) (id user_id : Nat)
    (title : Option (Option String)) (is_public : Option Bool) :
    Except ApiError GalleryImage × DBState :=
  match findGalleryOwned st id user_id with
  | none => (.error .notFound, st)
  | some existing =>
    match title, is_public with
    | none, none => (.ok existing, st)
    | _, _ =>
      let newTitle : Option String :=
        match title with
        | none => existing.title
        | some v => v
      let newPublic : Bool :=
        match is_public with
        | none => existing.is_public
        | some b => b
      let updated := { existing with title := newTitle, is_public := newPublic }
      let st' : DBState :=
        { st with galleryImages := st.galleryImages.map (fun gi =>
            if gi.id == id && gi.user_id == user_id then
              { gi with title := newTitle, is_public := newPublic }
            else gi) }
      (.ok updated, st')

/-- First generation row with the given id. -/
def findGeneration (st : DBState) (id : Nat) : Option ImageGeneration :=
  (st.generations.filter (fun g => g.id == id)).head?

/-- True when some gallery row of any user references the generation
and is public. -/
def hasPublicGalleryEntry (st : DBState) (image_generation_id : Nat) : Bool :=
  !(st.galleryImages.filter (fun gi =>
      gi.image_generation_id == image_generation_id && gi.is_public)).isEmpty

/-- Download handler (src/server/src/handlers/download_image.ts).
Checks existence, then completion, then ownership, then public
visibility through any gallery entry referencing the generation. -/
def downloadImage (st : DBState) (imageGenerationId userId : Nat) :
    Except ApiError DownloadResult :=
  match findGeneration st imageGenerationId with
  | none => .error .notFound
  | some imageData =>
    if imageData.status != GenStatus.completed then
      .error .invalidState
    else if imageData.user_id == userId then
      .ok { downloadUrl := imageData.image_url, filename := imageData.image_filename }
    else if hasPublicGalleryEntry st imageGenerationId then
      .ok { downloadUrl := imageData.image_url, filename := imageData.image_filename }
    else
      .error .accessDenied

/-! Helper lemmas about the sort used by the listing handlers. -/

/-- Sorting descending by a key yields a pairwise-descending list. -/
theorem sortByKeyDesc_pairwise (key : α → Nat) (l : List α) :
    (sortByKeyDesc key l).Pairwise (fun a b => key b ≤ key a) := by
  haveI : IsTotal α (fun a b => key b ≤ key a) := ⟨fun a b => le_total (key b) (key a)⟩
  haveI : IsTrans α (fun a b => key b ≤ key a) :=
    ⟨fun _ _ _ hab hbc => le_trans hbc hab⟩
  exact List.sorted_insertionSort _ l

/-- Sorting preserves length. -/
theorem sortByKeyDesc_length (key : α → Nat) (l : List α) :
    (sortByKeyDesc key l).length = l.length :=
  (List.perm_insertionSort _ l).length_eq

/-! Concrete demo rows and states used to instantiate theorems. -/

/-- Demo user row with a bcrypt credential, as inserted by the login
test setup. -/
def demoUser : User :=
  { id := 1, email := "alice@example.com", username := "alice",
    password_hash := .bcrypt "pw1", created_at := 0 }

/-- Second demo user, used as a non-owner requester. -/
def demoUser2 : User :=
  { id := 2, email := "bob@example.com", username := "bob",
    password_hash := .bcrypt "pw2", created_at := 0 }

/-- Completed generation owned by user 1. -/
def demoGen : ImageGeneration :=
  { id := 1, user_id := 1, prompt := "sunset", image_url := "https://img.example.com/1.png",
    image_filename := "1.png", status := .completed, created_at := 1, completed_at := some 2 }

/-- Pending generation owned by user 1. -/
def demoPendingGen : ImageGeneration :=
  { id := 2, user_id := 1, prompt := "dawn", image_url := "",
    image_filename := "2.png", status := .pending, created_at := 3, completed_at := none }

/-- State with two users, one completed and one pending generation,
and no gallery rows. -/
def demoState : DBState :=
  { users := [demoUser, demoUser2], generations := [demoGen, demoPendingGen],
    galleryImages := [], nextUserId := 3, nextGenId := 3, nextGalleryId := 1, now := 4 }

/-- Wide state: 21 completed generations of user 1, each saved to the
gallery, exceeding the documented default page size. -/
def wideGens : List ImageGeneration :=
  (List.range 21).map (fun i =>
    { id := i + 1, user_id := 1, prompt := "p", image_url := "u", image_filename := "f",
      status := .completed, created_at := i + 1, completed_at := some (i + 1) })

/-- Gallery rows of the wide state, one per generation. -/
def wideGallery : List GalleryImage :=
  (List.range 21).map (fun i =>
    { id := i + 1, user_id := 1, image_generation_id := i + 1, title := none,
      is_public := false, created_at := i + 1 })

/-- State with 21 gallery rows for user 1. -/
def wideState : DBState :=
  { users := [demoUser], generations := wideGens, galleryImages := wideGallery,
    nextUserId := 2, nextGenId := 22, nextGalleryId := 22, now := 22 }

/-- C1. Register/login round trip: on an empty store, register
succeeds, but a subsequent login with the same email and password
fails with the authentication error, because register stores a
sha256-with-salt encoding while login verifies with bcryptjs compare,
which rejects any string that is not a bcrypt hash. The third
conjunct isolates the mismatch at the credential level. -/
theorem register_then_login_rejects :
    (register DBState.empty "test@example.com" "password123" "testuser" "salt1").1.isOk
      = true ∧
    login (register DBState.empty "test@example.com" "password123" "testuser" "salt1").2
        "test@example.com" "password123" = .error ApiError.authentication ∧
    bcryptCompare "password123" (registerHash "password123" "salt1") = false :=
  ⟨rfl, rfl, rfl⟩

/-- C2 counterexample. In a state where user 1 has 21 gallery rows,
calling getUserGallery with limit omitted returns all 21 rows, not
the 20 the claimed default would give: an omitted limit is not
equivalent to limit 20. -/
theorem getUserGallery_no_default_limit :
    getUserGallery wideState 1 none none ≠ getUserGallery wideState 1 (some 20) (some 0) ∧
    (getUserGallery wideState 1 none none).length = 21 ∧
    (getUserGallery wideState 1 (some 20) (some 0)).length = 20 := by
  have h21 : (getUserGallery wideState 1 none none).length = 21 := rfl
  have h20 : (getUserGallery wideState 1 (some 20) (some 0)).length = 20 := rfl
  refine ⟨?_, h21, h20⟩
  intro h
  have hlen := congrArg List.length h
  rw [h21, h20] at hlen
  exact absurd hlen (by decide)

/-- Result of either listing handler is a sublist of the descending
sort of its row set, hence pairwise descending by created_at. -/
theorem pairwise_of_sublist_sort {key : α → Nat} {l res : List α}
    (h : List.Sublist res (sortByKeyDesc key l)) :
    res.Pairwise (fun a b => key b ≤ key a) :=
  (sortByKeyDesc_pairwise key l).sublist h

/-- C2 amended. Listing contract of the two handlers: for
getUserImageGenerations an omitted limit defaults to 20 and an
omitted offset to 0; both handlers order results by created_at
descending; an offset at or past the end of the row set yields the
empty array; for getUserGallery an omitted offset behaves as 0 but an
omitted limit applies no limit at all, returning every joined row in
sorted order. -/
theorem listing_contract (st : DBState) (uid : Nat) (status : Option GenStatus)
    (lim off : Option Nat) :
    getUserImageGenerations st uid status none none
        = getUserImageGenerations st uid status (some 20) (some 0) ∧
    (getUserImageGenerations st uid status lim off).Pairwise
        (fun a b => b.created_at ≤ a.created_at) ∧
    (getUserGallery st uid lim off).Pairwise
        (fun a b => b.created_at ≤ a.created_at) ∧
    getUserGallery st uid lim none = getUserGallery st uid lim (some 0) ∧
    (∀ o, (genRowsFor st uid status).length ≤ o →
        getUserImageGenerations st uid status lim (some o) = []) ∧
    (∀ o, (galleryJoinRows st uid).length ≤ o →
        getUserGallery st uid lim (some o) = []) ∧
    getUserGallery st uid none none
        = sortByKeyDesc (fun gi => gi.created_at) (galleryJoinRows st uid) := by
  refine ⟨rfl, ?_, ?_, ?_, ?_, ?_, rfl⟩
  · exact pairwise_of_sublist_sort
      ((List.take_sublist _ _).trans (List.drop_sublist _ _))
  · cases lim with
    | none =>
      cases off with
      | none => exact pairwise_of_sublist_sort (List.Sublist.refl _)
      | some o => exact pairwise_of_sublist_sort (List.drop_sublist _ _)
    | some l =>
      cases off with
      | none => exact pairwise_of_sublist_sort (List.take_sublist _ _)
      | some o =>
        exact pairwise_of_sublist_sort
          ((List.take_sublist _ _).trans (List.drop_sublist _ _))
  · cases lim <;> rfl
  · intro o ho
    have hdrop : (sortByKeyDesc (fun g => g.created_at)
        (genRowsFor st uid status)).drop o = [] :=
      List.drop_eq_nil_of_le (by rw [sortByKeyDesc_length]; exact ho)
    show ((sortByKeyDesc _ _).drop ((some o).getD 0)).take (lim.getD 20) = []
    simp [hdrop]
  · intro o ho
    have hdrop : (sortByKeyDesc (fun gi => gi.created_at)
        (galleryJoinRows st uid)).drop o = [] :=
      List.drop_eq_nil_of_le (by rw [sortByKeyDesc_length]; exact ho)
    cases lim with
    | none => exact hdrop
    | some l => show ((sortByKeyDesc _ _).drop o).take l = []; simp [hdrop]

/-- Witness for the listing contract: in the wide state user 1 has 21
joined gallery rows, and an offset of 30 lies past the end, so the
gallery listing returns the empty array. -/
theorem listing_contract_witness :
    (galleryJoinRows wideState 1).length ≤ 30 ∧
      getUserGallery wideState 1 none (some 30) = [] :=
  ⟨by decide, (listing_contract wideState 1 none none none).2.2.2.2.2.1 30 (by decide)⟩

/-- C3. For every generateImage call on an existing user the handler
returns ok with a record whose status is terminal (completed or
failed, never pending) and whose completed_at is set; when the
simulated provider fails the status is failed and the image url is
left empty, and the failure is still returned as an ok record rather
than an error. -/
theorem generateImage_terminal (st : DBState) (uid : Nat) (prompt uuid : String)
    (h : (st.users.filter (fun u => u.id == uid)).isEmpty = false) :
    ∃ rec st', generateImage st uid prompt uuid = (.ok rec, st') ∧
      rec.status ≠ GenStatus.pending ∧
      (rec.status = GenStatus.completed ∨ rec.status = GenStatus.failed) ∧
      rec.completed_at.isSome = true ∧
      (promptTriggersFailure prompt = true →
        rec.status = GenStatus.failed ∧ rec.image_url = "") ∧
      (promptTriggersFailure prompt = false →
        rec.status = GenStatus.completed) := by
  unfold generateImage
  rw [h]
  by_cases hp : promptTriggersFailure prompt = true
  · rw [hp]
    exact ⟨_, _, rfl, by simp, Or.inr rfl, rfl,
      fun _ => ⟨rfl, rfl⟩, fun hc => absurd hc (by decide)⟩
  · rw [Bool.not_eq_true] at hp
    rw [hp]
    exact ⟨_, _, rfl, by simp, Or.inl rfl, rfl,
      fun hc => (Bool.false_ne_true hc).elim, fun _ => rfl⟩

/-- Witness for C3: in the demo state user 1 exists, and a prompt
containing the failure trigger yields an ok record. -/
theorem generateImage_terminal_witness :
    (demoState.users.filter (fun u => u.id == 1)).isEmpty = false ∧
      ∃ rec st', generateImage demoState 1 "an error prompt" "uuid1" = (.ok rec, st') ∧
        rec.status ≠ GenStatus.pending ∧
        (rec.status = GenStatus.completed ∨ rec.status = GenStatus.failed) ∧
        rec.completed_at.isSome = true ∧
        (promptTriggersFailure "an error prompt" = true →
          rec.status = GenStatus.failed ∧ rec.image_url = "") ∧
        (promptTriggersFailure "an error prompt" = false →
          rec.status = GenStatus.completed) :=
  ⟨by decide, generateImage_terminal demoState 1 "an error prompt" "uuid1" (by decide)⟩

/-- C4. Download contract: a missing generation gives the not-found
error; an existing non-completed generation gives the invalid-state
error; on a completed generation the download succeeds exactly when
the requester owns it or some gallery entry referencing it is public,
and is denied in every other state. -/
theorem downloadImage_access (st : DBState) (gid rid : Nat) :
    (findGeneration st gid = none → downloadImage st gid rid = .error .notFound) ∧
    (∀ g, findGeneration st gid = some g →
      (g.status ≠ GenStatus.completed →
        downloadImage st gid rid = .error .invalidState) ∧
      (g.status = GenStatus.completed →
        (downloadImage st gid rid =
            .ok { downloadUrl := g.image_url, filename := g.image_filename } ↔
          (g.user_id = rid ∨ hasPublicGalleryEntry st gid = true)) ∧
        (g.user_id ≠ rid → hasPublicGalleryEntry st gid = false →
          downloadImage st gid rid = .error .accessDenied))) := by
  constructor
  · intro hnone
    unfold downloadImage
    rw [hnone]
  · intro g hsome
    have hdl : downloadImage st gid rid =
        (if g.status != GenStatus.completed then .error .invalidState
         else if g.user_id == rid then
           .ok { downloadUrl := g.image_url, filename := g.image_filename }
         else if hasPublicGalleryEntry st gid then
           .ok { downloadUrl := g.image_url, filename := g.image_filename }
         else .error .accessDenied) := by
      unfold downloadImage
      rw [hsome]
    constructor
    · intro hs
      rw [hdl, if_pos (by simpa using hs)]
    · intro hs
      rw [hdl, if_neg (by simp [hs])]
      constructor
      · constructor
        · intro hok
          by_cases hown : g.user_id == rid
          · exact Or.inl (by simpa using hown)
          · rw [if_neg hown] at hok
            by_cases hpub : hasPublicGalleryEntry st gid
            · exact Or.inr hpub
            · rw [if_neg hpub] at hok
              exact absurd hok (by simp)
        · intro hor
          rcases hor with hown | hpub
          · rw [if_pos (by simp [hown])]
          · by_cases hown : g.user_id == rid
            · rw [if_pos hown]
            · rw [if_neg hown, if_pos hpub]
      · intro hown hpub
        rw [if_neg (by simp [hown]), hpub]
        simp

/-- Witness for C4: in the demo state generation 1 is completed and
owned by user 1, with no gallery entries; requester 2 is denied. -/
theorem downloadImage_access_witness :
    findGeneration demoState 1 = some demoGen ∧
      demoGen.status = GenStatus.completed ∧
      demoGen.user_id ≠ 2 ∧ hasPublicGalleryEntry demoState 1 = false ∧
      downloadImage demoState 1 2 = .error .accessDenied :=
  ⟨by decide, rfl, by decide, rfl,
    (((downloadImage_access demoState 1 2).2 demoGen (by decide)).2 rfl).2
      (by decide) rfl⟩

/-- C10. The download handler checks completion before any ownership
or visibility check: for every existing generation whose status is
not completed, every requester receives the invalid-state error, and
that error differs from the not-found error a nonexistent id gives. -/
theorem downloadImage_statusCheckFirst (st : DBState) (gid rid : Nat)
    (g : ImageGeneration) (hsome : findGeneration st gid = some g)
    (hs : g.status ≠ GenStatus.completed) :
    downloadImage st gid rid = .error .invalidState ∧
      (ApiError.invalidState ≠ ApiError.notFound) := by
  refine ⟨?_, by decide⟩
  have hdl : downloadImage st gid rid =
      (if g.status != GenStatus.completed then .error .invalidState
       else if g.user_id == rid then
         .ok { downloadUrl := g.image_url, filename := g.image_filename }
       else if hasPublicGalleryEntry st gid then
         .ok { downloadUrl := g.image_url, filename := g.image_filename }
       else .error .accessDenied) := by
    unfold downloadImage
    rw [hsome]
  rw [hdl, if_pos (by simpa using hs)]

/-- Witness for C10: generation 2 of the demo state is pending, and
even a non-owner requester gets the invalid-state error. -/
theorem downloadImage_statusCheckFirst_witness :
    findGeneration demoState 2 = some demoPendingGen ∧
      demoPendingGen.status ≠ GenStatus.completed ∧
      downloadImage demoState 2 2 = .error .invalidState :=
  ⟨by decide, by decide,
    (downloadImage_statusCheckFirst demoState 2 2 demoPendingGen (by decide)
      (by decide)).1⟩

/-- Gallery row inserted by a successful saveToGallery call: title is
the input title coerced to null when falsy, visibility defaults to
false. -/
def newGalleryRow (st : DBState) (uid gid : Nat)
    (title : Option String) (pub : Option Bool) : GalleryImage :=
  { id := st.nextGalleryId, user_id := uid, image_generation_id := gid,
    title := (match title with
              | some t => if t == "" then none else some t
              | none => none),
    is_public := pub.getD false, created_at := st.now }

/-- Successor state of a successful saveToGallery call. -/
def saveSuccState (st : DBState) (uid gid : Nat)
    (title : Option String) (pub : Option Bool) : DBState :=
  { st with galleryImages := st.galleryImages ++ [newGalleryRow st uid gid title pub],
            nextGalleryId := st.nextGalleryId + 1, now := st.now + 1 }

/-- Case analysis of saveToGallery as a three-way conditional. -/
theorem saveToGallery_eq (st : DBState) (uid gid : Nat)
    (title : Option String) (pub : Option Bool) :
    saveToGallery st uid gid title pub =
      if genCompletedOwned st uid gid = false then (.error .notFound, st)
      else if galleryPairCount st uid gid ≠ 0 then (.error .conflictGallery, st)
      else (.ok (newGalleryRow st uid gid title pub),
            saveSuccState st uid gid title pub) := by
  unfold saveToGallery
  by_cases hg : genCompletedOwned st uid gid
  · by_cases hc : galleryPairCount st uid gid = 0 <;>
      simp [hg, hc, newGalleryRow, saveSuccState]
  · simp [Bool.not_eq_true] at hg
    simp [hg]

/-- The generations table is untouched by a successful save, so the
precondition predicate is unchanged. -/
theorem genCompletedOwned_saveSucc (st : DBState) (uid gid : Nat)
    (title : Option String) (pub : Option Bool) (uid2 gid2 : Nat) :
    genCompletedOwned (saveSuccState st uid gid title pub) uid2 gid2 =
      genCompletedOwned st uid2 gid2 := rfl

/-- A successful save increments the pair count of its own pair. -/
theorem galleryPairCount_saveSucc (st : DBState) (uid gid : Nat)
    (title : Option String) (pub : Option Bool) :
    galleryPairCount (saveSuccState st uid gid title pub) uid gid =
      galleryPairCount st uid gid + 1 := by
  simp [galleryPairCount, saveSuccState, newGalleryRow, List.filter_append]

/-- C5. Save-to-gallery contract: the call fails with the combined
not-found error exactly when no completed generation with that id
owned by the user exists; with such a generation and an existing
gallery row for the pair it fails with the conflict error and leaves
the store unchanged; otherwise it appends exactly one gallery row for
the pair, after which the pair count is one and every repeated call
for the identical pair fails with the conflict error without
changing the store. -/
theorem saveToGallery_spec (st : DBState) (uid gid : Nat)
    (title : Option String) (pub : Option Bool) :
    (genCompletedOwned st uid gid = false ↔
      saveToGallery st uid gid title pub = (.error .notFound, st)) ∧
    (genCompletedOwned st uid gid = true → 1 ≤ galleryPairCount st uid gid →
      saveToGallery st uid gid title pub = (.error .conflictGallery, st)) ∧
    (genCompletedOwned st uid gid = true → galleryPairCount st uid gid = 0 →
      ∃ gi st2, saveToGallery st uid gid title pub = (.ok gi, st2) ∧
        st2.galleryImages = st.galleryImages ++ [gi] ∧
        gi.user_id = uid ∧ gi.image_generation_id = gid ∧
        galleryPairCount st2 uid gid = 1 ∧
        ∀ t2 p2, saveToGallery st2 uid gid t2 p2 = (.error .conflictGallery, st2)) := by
  by_cases hg : genCompletedOwned st uid gid = false
  · have hrw : saveToGallery st uid gid title pub = (.error .notFound, st) := by
      rw [saveToGallery_eq, if_pos hg]
    exact ⟨⟨fun _ => hrw, fun _ => hg⟩,
      fun ht => absurd hg (by simp [ht]),
      fun ht => absurd hg (by simp [ht])⟩
  · by_cases hc : galleryPairCount st uid gid = 0
    · have hrw : saveToGallery st uid gid title pub =
          (.ok (newGalleryRow st uid gid title pub),
           saveSuccState st uid gid title pub) := by
        rw [saveToGallery_eq, if_neg hg, if_neg (fun h => h hc)]
      refine ⟨⟨fun hf => absurd hf hg, fun heq => ?_⟩,
        fun _ h1 => absurd hc (by omega),
        fun _ _ => ⟨newGalleryRow st uid gid title pub,
          saveSuccState st uid gid title pub, hrw, rfl, rfl, rfl, ?_, ?_⟩⟩
      · rw [hrw] at heq
        exact absurd heq (by simp)
      · rw [galleryPairCount_saveSucc, hc]
      · intro t2 p2
        have hg2 : ¬ genCompletedOwned (saveSuccState st uid gid title pub) uid gid
            = false := by
          rw [genCompletedOwned_saveSucc]
          exact hg
        have hc2 : galleryPairCount (saveSuccState st uid gid title pub) uid gid ≠ 0 := by
          rw [galleryPairCount_saveSucc]
          omega
        rw [saveToGallery_eq, if_neg hg2, if_pos hc2]
    · have hrw : saveToGallery st uid gid title pub = (.error .conflictGallery, st) := by
        rw [saveToGallery_eq, if_neg hg, if_pos hc]
      refine ⟨⟨fun hf => absurd hf hg, fun heq => ?_⟩,
        fun _ _ => hrw, fun _ h0 => absurd h0 hc⟩
      rw [hrw] at heq
      exact absurd heq (by simp)

/-- Witness for C5: in the demo state generation 1 is completed and
owned by user 1 with no gallery rows yet, so a save succeeds and the
resulting pair count is one. -/
theorem saveToGallery_spec_witness :
    genCompletedOwned demoState 1 1 = true ∧ galleryPairCount demoState 1 1 = 0 ∧
      ∃ gi st2, saveToGallery demoState 1 1 (some "My Sunset") (some true)
          = (.ok gi, st2) ∧
        st2.galleryImages = demoState.galleryImages ++ [gi] ∧
        gi.user_id = 1 ∧ gi.image_generation_id = 1 ∧
        galleryPairCount st2 1 1 = 1 ∧
        ∀ t2 p2, saveToGallery st2 1 1 t2 p2 = (.error .conflictGallery, st2) :=
  ⟨by decide, by decide,
    (saveToGallery_spec demoState 1 1 (some "My Sunset") (some true)).2.2
      (by decide) (by decide)⟩

/-- Demo gallery row owned by user 1 referencing generation 1. -/
def demoGalleryRow : GalleryImage :=
  { id := 1, user_id := 1, image_generation_id := 1, title := some "Original Title",
    is_public := false, created_at := 2 }

/-- Demo state extended with one gallery row. -/
def demoGalleryState : DBState :=
  { demoState with galleryImages := [demoGalleryRow], nextGalleryId := 2 }

/-- C6. Update contract on an owned record: with no fields provided
the stored record and the store are returned unchanged; in every case
the result is ok and the id, owner, generation reference and creation
timestamp of the returned record equal the stored ones; the title
becomes the provided value when a title key is present (null for an
explicit undefined) and stays untouched when the key is absent, and
likewise for the visibility flag. -/
theorem updateGalleryImage_spec (st : DBState) (id uid : Nat) (gi : GalleryImage)
    (hfind : findGalleryOwned st id uid = some gi) :
    updateGalleryImage st id uid none none = (.ok gi, st) ∧
    (∀ (t : Option (Option String)) (p : Option Bool),
      ∃ gi' st', updateGalleryImage st id uid t p = (.ok gi', st') ∧
        gi'.id = gi.id ∧ gi'.user_id = gi.user_id ∧
        gi'.image_generation_id = gi.image_generation_id ∧
        gi'.created_at = gi.created_at ∧
        gi'.title = (match t with | none => gi.title | some v => v) ∧
        gi'.is_public = (match p with | none => gi.is_public | some b => b)) := by
  constructor
  · unfold updateGalleryImage
    rw [hfind]
  · intro t p
    unfold updateGalleryImage
    rw [hfind]
    cases t <;> cases p <;>
      exact ⟨_, _, rfl, rfl, rfl, rfl, rfl, rfl, rfl⟩

/-- Witness for C6: updating the demo gallery row with only the
visibility flag leaves the stored title in place. -/
theorem updateGalleryImage_spec_witness :
    findGalleryOwned demoGalleryState 1 1 = some demoGalleryRow ∧
      ∃ gi' st', updateGalleryImage demoGalleryState 1 1 none (some true)
          = (.ok gi', st') ∧
        gi'.id = demoGalleryRow.id ∧ gi'.user_id = demoGalleryRow.user_id ∧
        gi'.image_generation_id = demoGalleryRow.image_generation_id ∧
        gi'.created_at = demoGalleryRow.created_at ∧
        gi'.title = (match (none : Option (Option String)) with
                     | none => demoGalleryRow.title
                     | some v => v) ∧
        gi'.is_public = (match some true with
                         | none => demoGalleryRow.is_public
                         | some b => b) :=
  ⟨by decide,
    (updateGalleryImage_spec demoGalleryState 1 1 demoGalleryRow (by decide)).2
      none (some true)⟩

/-- Payload shape of the straight-line insert path of register. -/
theorem registerCreate_payload (st : DBState) (email pw username salt : String)
    (r : AuthResponse) (st' : DBState)
    (h : registerCreate st email pw username salt = (.ok r, st')) :
    ∃ u, u ∈ st'.users ∧ r.user = publicUser u ∧
      u.email = email ∧ u.username = username := by
  unfold registerCreate at h
  injection h with h1 h2
  injection h1 with h1
  subst h1
  subst h2
  exact ⟨{ id := st.nextUserId, email := email, username := username,
           password_hash := registerHash pw salt, created_at := st.now },
    by simp, rfl, rfl, rfl⟩

/-- C7. Whenever a stored user collides with the requested email or
username, register fails with a conflict error naming a colliding
field and leaves the store unchanged (no user row is created). -/
theorem register_conflict (st : DBState) (email pw username salt : String)
    (u : User) (rest : List User)
    (hfilter : st.users.filter (fun v => v.email == email || v.username == username)
      = u :: rest) :
    register st email pw username salt =
      (.error (if u.email == email then ApiError.conflictEmail
               else ApiError.conflictUsername), st) ∧
    ((if u.email == email then ApiError.conflictEmail else ApiError.conflictUsername)
        = ApiError.conflictEmail → u.email = email) ∧
    ((if u.email == email then ApiError.conflictEmail else ApiError.conflictUsername)
        = ApiError.conflictUsername → u.username = username) := by
  have hmem : u ∈ st.users.filter (fun v => v.email == email || v.username == username) :=
    hfilter ▸ List.mem_cons_self u rest
  have hpred : (u.email == email || u.username == username) = true :=
    (List.mem_filter.mp hmem).2
  by_cases he : (u.email == email) = true
  · refine ⟨?_, fun _ => by simpa using he, fun habs => absurd habs (by simp [he])⟩
    unfold register
    rw [hfilter]
    simp [he]
  · have hu : (u.username == username) = true := by
      simpa [he] using hpred
    refine ⟨?_, fun habs => absurd habs.symm (by simp [he]),
      fun _ => by simpa using hu⟩
    unfold register
    rw [hfilter]
    simp [he, hu]

/-- Witness for C7: registering in the demo state with the email of
the stored user alice reports the email conflict. -/
theorem register_conflict_witness :
    demoState.users.filter (fun v =>
        v.email == "alice@example.com" || v.username == "newname")
      = demoUser :: [] ∧
    register demoState "alice@example.com" "pw" "newname" "s"
      = (.error ApiError.conflictEmail, demoState) :=
  ⟨by decide,
    by simpa using (register_conflict demoState "alice@example.com" "pw" "newname" "s"
      demoUser [] (by decide)).1⟩

/-- C8. Returned auth payloads carry only the public projection of a
stored user row: every successful register returns the projection of
the inserted row, and every successful login returns the projection
of a stored row; the projection type has only id, email, username and
created_at, never the credential. -/
theorem auth_payload_public (st : DBState) (email pw username salt : String) :
    (∀ r st', register st email pw username salt = (.ok r, st') →
      ∃ u, u ∈ st'.users ∧ r.user = publicUser u ∧
        u.email = email ∧ u.username = username) ∧
    (∀ r, login st email pw = .ok r →
      ∃ u, u ∈ st.users ∧ r.user = publicUser u) := by
  constructor
  · intro r st' h
    unfold register at h
    cases hfilter : st.users.filter (fun u => u.email == email || u.username == username) with
    | nil =>
      rw [hfilter] at h
      exact registerCreate_payload st email pw username salt r st' h
    | cons u0 rest =>
      rw [hfilter] at h
      have h' : (if u0.email == email then
            ((.error ApiError.conflictEmail : Except ApiError AuthResponse), st)
          else if u0.username == username then (.error ApiError.conflictUsername, st)
          else registerCreate st email pw username salt) = (.ok r, st') := h
      by_cases he : (u0.email == email) = true
      · rw [if_pos he] at h'
        exact absurd h' (by simp)
      · rw [if_neg he] at h'
        by_cases hu : (u0.username == username) = true
        · rw [if_pos hu] at h'
          exact absurd h' (by simp)
        · rw [if_neg hu] at h'
          exact registerCreate_payload st email pw username salt r st' h'
  · intro r h
    unfold login at h
    cases hfilter : st.users.filter (fun u => u.email == email) with
    | nil =>
      rw [hfilter] at h
      exact absurd h (by simp)
    | cons u0 rest =>
      rw [hfilter] at h
      have h' : (if bcryptCompare pw u0.password_hash then
            (.ok { user := publicUser u0,
                   token := { userId := u0.id, email := u0.email } } :
              Except ApiError AuthResponse)
          else .error ApiError.authentication) = .ok r := h
      by_cases hb : bcryptCompare pw u0.password_hash = true
      · rw [if_pos hb] at h'
        injection h' with h1
        subst h1
        refine ⟨u0, ?_, rfl⟩
        exact List.mem_of_mem_filter (hfilter ▸ List.mem_cons_self u0 rest)
      · rw [if_neg hb] at h'
        exact absurd h' (by simp)

/-- Fallback auth payload used only to totalize demo projections. -/
def blankAuth : AuthResponse :=
  { user := { id := 0, email := "", username := "", created_at := 0 },
    token := { userId := 0, email := "" } }

/-- Payload of a demo register call on the empty store. -/
def demoRegPayload : AuthResponse :=
  match (register DBState.empty "demo@example.com" "pw9" "demo" "s9").1 with
  | .ok r => r
  | .error _ => blankAuth

/-- Payload of a demo login against the bcrypt credential of the demo
state. -/
def demoLoginPayload : AuthResponse :=
  match login demoState "alice@example.com" "pw1" with
  | .ok r => r
  | .error _ => blankAuth

/-- Witness for C8: the demo register and demo login both succeed and
return public projections of stored rows. -/
theorem auth_payload_public_witness :
    (∃ u, u ∈ (register DBState.empty "demo@example.com" "pw9" "demo" "s9").2.users ∧
      demoRegPayload.user = publicUser u ∧
      u.email = "demo@example.com" ∧ u.username = "demo") ∧
    (∃ u, u ∈ demoState.users ∧ demoLoginPayload.user = publicUser u) :=
  ⟨(auth_payload_public DBState.empty "demo@example.com" "pw9" "demo" "s9").1
      demoRegPayload (register DBState.empty "demo@example.com" "pw9" "demo" "s9").2 rfl,
   (auth_payload_public demoState "alice@example.com" "pw1" "x" "y").2
      demoLoginPayload rfl⟩

/-- C9. saveToGallery coerces a falsy title to null: a call with the
empty string as title behaves identically to a call with no title at
all, and any record it creates stores a null title. -/
theorem saveToGallery_emptyTitle (st : DBState) (uid gid : Nat) (pub : Option Bool) :
    saveToGallery st uid gid (some "") pub = saveToGallery st uid gid none pub ∧
    (∀ gi st2, saveToGallery st uid gid (some "") pub = (.ok gi, st2) →
      gi.title = none) := by
  constructor
  · rfl
  · intro gi st2 h
    rw [saveToGallery_eq] at h
    by_cases hg : genCompletedOwned st uid gid = false
    · rw [if_pos hg] at h
      exact absurd h (by simp)
    · by_cases hc : galleryPairCount st uid gid ≠ 0
      · rw [if_neg hg, if_pos hc] at h
        exact absurd h (by simp)
      · rw [if_neg hg, if_neg hc] at h
        injection h with h1 h2
        injection h1 with h1
        rw [← h1]
        rfl

/-- Saved row of the demo empty-title call. -/
def demoSavedRow : GalleryImage :=
  match (saveToGallery demoState 1 1 (some "") none).1 with
  | .ok gi => gi
  | .error _ =>
    { id := 0, user_id := 0, image_generation_id := 0, title := some "x",
      is_public := false, created_at := 0 }

/-- Witness for C9: the demo save with an empty-string title succeeds
and the created row has a null title. -/
theorem saveToGallery_emptyTitle_witness : demoSavedRow.title = none :=
  (saveToGallery_emptyTitle demoState 1 1 none).2 demoSavedRow
    (saveToGallery demoState 1 1 (some "") none).2 rfl

end Gallery
